import Mathlib

/-!
Shallow embedding of src/main.py (class OptionsAnalyzer): the metrics
engine (percentile, strike selection, synthetic premium, annualized
return), the no-data guards of the report and chart writers, and the
stateful orchestration (analysis_data accumulation across analyze/run).
Python floats are modelled as exact rationals; the Python built-in round
(ties to even) is modelled by rnd, and round(x, 2) by roundTo2.
File I/O is modelled by returning the filename and, for the spreadsheet,
the serialized sheet (header and cell rows); the matplotlib drawing
itself is out of scope, only the guard and returned filename are kept.
-/

namespace OptionsAnalyzer

/-- Round a rational to the nearest integer, ties going to the even
integer: the semantics of the Python built-in round with one argument. -/
def rnd (q : ℚ) : ℤ :=
  if q - (⌊q⌋ : ℚ) < 1/2 then ⌊q⌋
  else if 1/2 < q - (⌊q⌋ : ℚ) then ⌊q⌋ + 1
  else if ⌊q⌋ % 2 = 0 then ⌊q⌋ else ⌊q⌋ + 1

/-- Round to 2 decimal places, ties to even: models Python round(x, 2). -/
def roundTo2 (q : ℚ) : ℚ := (rnd (q * 100) : ℚ) / 100

/-- Embedding of calculate_percentile (src/main.py lines 12-15). -/
def calculate_percentile (current high low : ℚ) : ℚ :=
  if high = low then 50 else ((current - low) / (high - low)) * 100

/-- Embedding of find_nearest_strike (src/main.py lines 17-18); the Python
default strike_interval=50 is passed explicitly at every call site. -/
def find_nearest_strike (price strike_interval : ℚ) : ℚ :=
  (rnd (price / strike_interval) : ℚ) * strike_interval

/-- Embedding of calculate_strike_with_margin (src/main.py lines 20-28). -/
def calculate_strike_with_margin (spot_price margin_percent : ℚ) (is_call : Bool) : ℚ :=
  let nearest_strike := find_nearest_strike spot_price 50
  let target_price :=
    if is_call then nearest_strike * (1 - margin_percent / 100)
    else nearest_strike * (1 + margin_percent / 100)
  find_nearest_strike target_price 50

/-- Embedding of generate_option_premium (src/main.py lines 30-42). -/
def generate_option_premium (spot_price strike_price : ℚ) (option_type : String) : ℚ :=
  let base_premium :=
    if option_type = "CE" then
      if spot_price > strike_price then (spot_price - strike_price) + spot_price * 0.02
      else spot_price * 0.01
    else
      if spot_price < strike_price then (strike_price - spot_price) + spot_price * 0.02
      else spot_price * 0.01
  roundTo2 base_premium

/-- Embedding of calculate_irr (src/main.py lines 44-49); the Python
default days_to_expiry=30 is passed explicitly at every call site. -/
def calculate_irr (premium strike_price days_to_expiry : ℚ) : ℚ :=
  let margin_required := strike_price * 0.15
  if margin_required = 0 then 0
  else roundTo2 ((premium / margin_required) * (365 / days_to_expiry) * 100)

/-- Input record shape of get_sample_data (src/main.py lines 51-64). -/
structure SymbolRecord where
  symbol : String
  spot_price : ℚ
  high_52w : ℚ
  low_52w : ℚ
  lot_size : ℚ
deriving DecidableEq

/-- Output row shape built by analyze (src/main.py lines 97-111), one
field per dictionary key in insertion order. -/
structure AnalysisRow where
  symbol : String
  spot_price : ℚ
  high_52w : ℚ
  low_52w : ℚ
  percentile : ℚ
  lot_size : ℚ
  ce_strike : ℚ
  ce_premium : ℚ
  ce_irr : ℚ
  pe_strike : ℚ
  pe_premium : ℚ
  pe_irr : ℚ
  margin_used : ℚ
deriving DecidableEq

/-- Embedding of get_sample_data (src/main.py lines 51-64). -/
def get_sample_data : List SymbolRecord :=
  [⟨"NIFTY", 19500, 20000, 18000, 50⟩,
   ⟨"BANKNIFTY", 44500, 46000, 42000, 25⟩,
   ⟨"RELIANCE", 2450, 2650, 2250, 250⟩,
   ⟨"TCS", 3600, 3850, 3200, 125⟩,
   ⟨"INFY", 1480, 1600, 1350, 300⟩,
   ⟨"HDFCBANK", 1650, 1750, 1450, 550⟩,
   ⟨"ICICIBANK", 950, 1050, 850, 1375⟩,
   ⟨"SBIN", 590, 650, 520, 1500⟩,
   ⟨"BHARTIARTL", 880, 950, 750, 1220⟩,
   ⟨"HINDUNILVR", 2580, 2800, 2350, 300⟩]

/-- Body of the per-stock loop of analyze (src/main.py lines 73-113). -/
def analyzeStock (margin_percent lot_multiplier : ℚ) (stock : SymbolRecord) : AnalysisRow :=
  let spot_price := stock.spot_price
  let high_52w := stock.high_52w
  let low_52w := stock.low_52w
  let percentile := calculate_percentile spot_price high_52w low_52w
  let ce_strike := calculate_strike_with_margin spot_price margin_percent true
  let pe_strike := calculate_strike_with_margin spot_price margin_percent false
  let ce_premium := generate_option_premium spot_price ce_strike "CE"
  let pe_premium := generate_option_premium spot_price pe_strike "PE"
  let ce_irr := calculate_irr ce_premium ce_strike 30
  let pe_irr := calculate_irr pe_premium pe_strike 30
  let adjusted_lot_size := stock.lot_size * lot_multiplier
  { symbol := stock.symbol
    spot_price := spot_price
    high_52w := high_52w
    low_52w := low_52w
    percentile := roundTo2 percentile
    lot_size := adjusted_lot_size
    ce_strike := ce_strike
    ce_premium := ce_premium
    ce_irr := roundTo2 ce_irr
    pe_strike := pe_strike
    pe_premium := pe_premium
    pe_irr := roundTo2 pe_irr
    margin_used := margin_percent }

/-- The loop of analyze over an arbitrary record sequence. -/
def analyzeList (margin_percent lot_multiplier : ℚ) (stocks : List SymbolRecord) : List AnalysisRow :=
  stocks.map (analyzeStock margin_percent lot_multiplier)

/-- Cell of the exported spreadsheet: a string or a numeric value. -/
inductive Cell where
  | str (s : String)
  | num (q : ℚ)
deriving DecidableEq

/-- Column names of the exported sheet: the dictionary keys of the row
built by analyze (src/main.py lines 97-111), in insertion order, which is
the column order pandas gives the DataFrame. -/
def headerNames : List String :=
  ["Symbol", "Spot Price", "52W High", "52W Low", "Percentile", "Lot Size",
   "CE Strike", "CE Premium", "CE IRR", "PE Strike", "PE Premium", "PE IRR",
   "Margin Used (%)"]

/-- Serialization of one AnalysisRow to one spreadsheet data row, in the
column order of headerNames. -/
def rowCells (r : AnalysisRow) : List Cell :=
  [.str r.symbol, .num r.spot_price, .num r.high_52w, .num r.low_52w,
   .num r.percentile, .num r.lot_size, .num r.ce_strike, .num r.ce_premium,
   .num r.ce_irr, .num r.pe_strike, .num r.pe_premium, .num r.pe_irr,
   .num r.margin_used]

/-- Exported spreadsheet: one header row and the data rows. -/
structure Sheet where
  header : List String
  rows : List (List Cell)
deriving DecidableEq

/-- Embedding of save_to_excel (src/main.py lines 118-143): with no data
it reports the condition and returns no file (Python returns None);
otherwise it returns the filename used together with the written sheet.
The timestamp argument stands for datetime.now() of the default filename. -/
def save_to_excel (analysis_data : List AnalysisRow) (filename : Option String)
    (timestamp : String) : Option (String × Sheet) :=
  if analysis_data.isEmpty then none
  else
    let fn :=
      match filename with
      | some f => f
      | none => "Options_Analysis_" ++ timestamp ++ ".xlsx"
    some (fn, { header := headerNames, rows := analysis_data.map rowCells })

/-- Embedding of save_graphs (src/main.py lines 145-261): with no data it
reports the condition and returns no file; otherwise it returns the
filename used. The chart drawing itself is not modelled. -/
def save_graphs (analysis_data : List AnalysisRow) (filename : Option String)
    (timestamp : String) : Option String :=
  if analysis_data.isEmpty then none
  else
    match filename with
    | some f => some f
    | none => some ("Options_Analysis_Graphs_" ++ timestamp ++ ".png")

/-- Mutable fields of the OptionsAnalyzer object (src/main.py lines 7-10). -/
structure AnalyzerState where
  analysis_data : List AnalysisRow
  margin_percent : ℚ
  lot_multiplier : ℚ
deriving DecidableEq

/-- Embedding of OptionsAnalyzer.__init__ (src/main.py lines 7-10). -/
def init : AnalyzerState :=
  { analysis_data := [], margin_percent := 15, lot_multiplier := 1 }

/-- Embedding of analyze (src/main.py lines 66-116): appends one row per
sample record to self.analysis_data (without clearing it) and returns the
accumulated list. -/
def analyze (s : AnalyzerState) : AnalyzerState × List AnalysisRow :=
  let rows := analyzeList s.margin_percent s.lot_multiplier get_sample_data
  let s2 := { s with analysis_data := s.analysis_data ++ rows }
  (s2, s2.analysis_data)

/-- Embedding of run (src/main.py lines 263-294): sets the parameters,
runs analyze, then saves the spreadsheet and the charts from
self.analysis_data. Returns the final state and the two save results. -/
def run (s : AnalyzerState) (margin_percent lot_multiplier : ℚ) (timestamp : String) :
    AnalyzerState × (Option (String × Sheet) × Option String) :=
  let s1 := { s with margin_percent := margin_percent, lot_multiplier := lot_multiplier }
  let s2 := (analyze s1).1
  let excel_file := save_to_excel s2.analysis_data none timestamp
  let graph_file := save_graphs s2.analysis_data none timestamp
  (s2, excel_file, graph_file)

/-- Helper: rnd fixes every integer. -/
theorem rnd_intCast (n : ℤ) : rnd (n : ℚ) = n := by
  unfold rnd
  rw [Int.floor_intCast]
  norm_num

/-- Helper: rnd is round to nearest, ties to even: it is within a half of
its argument, and a tie (distance exactly a half) lands on an even integer. -/
theorem rnd_half_even (q : ℚ) :
    |q - (rnd q : ℚ)| ≤ 1/2 ∧ (|q - (rnd q : ℚ)| = 1/2 → rnd q % 2 = 0) := by
  have h0 : (0:ℚ) ≤ q - (⌊q⌋:ℚ) := by
    have := Int.floor_le q; linarith
  have h1 : q - (⌊q⌋:ℚ) < 1 := by
    have := Int.lt_floor_add_one q; linarith
  unfold rnd
  split_ifs with ha hb hc
  · rw [abs_of_nonneg h0]
    exact ⟨le_of_lt ha, fun he => absurd he (ne_of_lt ha)⟩
  · have hcast : ((⌊q⌋ + 1 : ℤ):ℚ) = (⌊q⌋:ℚ) + 1 := by push_cast; ring
    rw [hcast]
    have hle : q - ((⌊q⌋:ℚ) + 1) ≤ 0 := by linarith
    rw [abs_of_nonpos hle]
    constructor
    · linarith
    · intro he; exfalso; linarith
  · have heq : q - (⌊q⌋:ℚ) = 1/2 := le_antisymm (not_lt.mp hb) (not_lt.mp ha)
    exact ⟨by rw [abs_of_nonneg h0]; linarith, fun _ => hc⟩
  · have heq : q - (⌊q⌋:ℚ) = 1/2 := le_antisymm (not_lt.mp hb) (not_lt.mp ha)
    have hcast : ((⌊q⌋ + 1 : ℤ):ℚ) = (⌊q⌋:ℚ) + 1 := by push_cast; ring
    rw [hcast]
    have hval : q - ((⌊q⌋:ℚ) + 1) = -(1/2) := by linarith
    constructor
    · rw [hval, abs_neg, abs_of_nonneg (by norm_num : (0:ℚ) ≤ 1/2)]
    · intro _; omega

/-- Helper: find_nearest_strike fixes every exact multiple of the interval. -/
theorem find_nearest_strike_mul (k : ℤ) (i : ℚ) (hi : i ≠ 0) :
    find_nearest_strike ((k:ℚ) * i) i = (k:ℚ) * i := by
  unfold find_nearest_strike
  rw [mul_div_assoc, div_self hi, mul_one, rnd_intCast]

/-- Helper: applying find_nearest_strike twice with the same nonzero
interval gives the same strike as applying it once. -/
theorem fns_idem (p i : ℚ) (hi : i ≠ 0) :
    find_nearest_strike (find_nearest_strike p i) i = find_nearest_strike p i :=
  find_nearest_strike_mul (rnd (p / i)) i hi

/-- Helper: the analysis_data after run is the incoming analysis_data with
the rows of this pass appended; run never clears the collection. -/
theorem run_data (s : AnalyzerState) (m l : ℚ) (ts : String) :
    (run s m l ts).1.analysis_data = s.analysis_data ++ analyzeList m l get_sample_data := rfl

/-- C1 (counterexample): on the NIFTY record the code computes
ce_irr = 1607.56, not the value 1607.95 given by the spec; the spec's own
formula (3290 / 2490) * (365 / 30) * 100 evaluates to 1607.5635... and
rounds to 1607.56. -/
theorem nifty_irr_differs :
    calculate_irr 3290 16600 30 = 1607.56 ∧ calculate_irr 3290 16600 30 ≠ 1607.95 := by
  have h : calculate_irr 3290 16600 30 = 1607.56 := by
    norm_num [calculate_irr, roundTo2, rnd]
  exact ⟨h, by rw [h]; norm_num⟩

/-- C1 (amended): for the NIFTY input record with margin_percent = 15 the
pipeline produces percentile = 75.0, nearest_strike 19500 = 19500,
ce_strike = 16600, ce_premium = 3290.00 and ce_irr = 1607.56. -/
theorem nifty_pipeline_values :
    calculate_percentile 19500 20000 18000 = 75 ∧
    find_nearest_strike 19500 50 = 19500 ∧
    calculate_strike_with_margin 19500 15 true = 16600 ∧
    generate_option_premium 19500 16600 "CE" = 3290 ∧
    calculate_irr 3290 16600 30 = 1607.56 ∧
    (analyzeStock 15 1 ⟨"NIFTY", 19500, 20000, 18000, 50⟩).percentile = 75 ∧
    (analyzeStock 15 1 ⟨"NIFTY", 19500, 20000, 18000, 50⟩).ce_strike = 16600 ∧
    (analyzeStock 15 1 ⟨"NIFTY", 19500, 20000, 18000, 50⟩).ce_premium = 3290 ∧
    (analyzeStock 15 1 ⟨"NIFTY", 19500, 20000, 18000, 50⟩).ce_irr = 1607.56 := by
  refine ⟨?_, ?_, ?_, ?_, ?_, ?_, ?_, ?_, ?_⟩ <;>
    norm_num [analyzeStock, calculate_percentile, calculate_strike_with_margin,
      find_nearest_strike, generate_option_premium, calculate_irr, roundTo2, rnd]

/-- C2: calculate_percentile returns exactly 50 when high = low, and
otherwise returns ((current - low) / (high - low)) * 100 with no
clamping. -/
theorem percentile_formula (current high low : ℚ) :
    (high = low → calculate_percentile current high low = 50) ∧
    (high ≠ low →
      calculate_percentile current high low = ((current - low) / (high - low)) * 100) := by
  unfold calculate_percentile
  constructor
  · intro h; rw [if_pos h]
  · intro h; rw [if_neg h]

/-- C2 (witness): both branches at concrete inputs; note 200 is an
unclamped output above 100. -/
theorem percentile_formula_points :
    calculate_percentile 7 3 3 = 50 ∧
    calculate_percentile 7 5 3 = (((7:ℚ) - 3) / (5 - 3)) * 100 :=
  ⟨(percentile_formula 7 3 3).1 rfl, (percentile_formula 7 5 3).2 (by norm_num)⟩

/-- C3: find_nearest_strike equals the interval times the rounding of
price / interval, that rounding is round to nearest with ties to even,
and the output is always an exact integer multiple of the interval. -/
theorem nearest_strike_rounding (price interval : ℚ) (_h : 0 < interval) :
    find_nearest_strike price interval = (rnd (price / interval) : ℚ) * interval ∧
    (∃ k : ℤ, find_nearest_strike price interval = (k : ℚ) * interval) ∧
    |price / interval - (rnd (price / interval) : ℚ)| ≤ 1/2 ∧
    (|price / interval - (rnd (price / interval) : ℚ)| = 1/2 →
      rnd (price / interval) % 2 = 0) :=
  ⟨rfl, ⟨rnd (price / interval), rfl⟩,
    (rnd_half_even (price / interval)).1, (rnd_half_even (price / interval)).2⟩

/-- C3 (witness): at price 125, interval 50 the quotient 2.5 is a tie and
rounds to the even integer 2, giving strike 100. -/
theorem nearest_strike_rounding_point :
    find_nearest_strike 125 50 = (rnd ((125:ℚ) / 50) : ℚ) * 50 ∧
    (∃ k : ℤ, find_nearest_strike 125 50 = (k : ℚ) * 50) ∧
    |(125:ℚ) / 50 - (rnd ((125:ℚ) / 50) : ℚ)| ≤ 1/2 ∧
    (|(125:ℚ) / 50 - (rnd ((125:ℚ) / 50) : ℚ)| = 1/2 → rnd ((125:ℚ) / 50) % 2 = 0) :=
  nearest_strike_rounding 125 50 (by norm_num)

/-- C4: with margin_percent = 0 the strike-with-margin equals the plain
nearest strike of the spot, for both values of is_call. -/
theorem zero_margin_strike (spot : ℚ) (is_call : Bool) :
    calculate_strike_with_margin spot 0 is_call = find_nearest_strike spot 50 := by
  have h1 : find_nearest_strike spot 50 * (1 - 0 / 100) = find_nearest_strike spot 50 := by
    norm_num
  have h2 : find_nearest_strike spot 50 * (1 + 0 / 100) = find_nearest_strike spot 50 := by
    norm_num
  cases is_call
  · show find_nearest_strike (find_nearest_strike spot 50 * (1 + 0 / 100)) 50 = _
    rw [h2]
    exact fns_idem spot 50 (by norm_num)
  · show find_nearest_strike (find_nearest_strike spot 50 * (1 - 0 / 100)) 50 = _
    rw [h1]
    exact fns_idem spot 50 (by norm_num)

/-- C5: the synthetic premium is the intrinsic value plus a 2 percent
time-value proxy in the in-the-money branch and a flat 1 percent proxy
otherwise, each rounded to 2 decimals, for both option types. -/
theorem premium_formula (spot strike : ℚ) :
    (spot > strike →
      generate_option_premium spot strike "CE" = roundTo2 ((spot - strike) + spot * 0.02)) ∧
    (spot ≤ strike →
      generate_option_premium spot strike "CE" = roundTo2 (spot * 0.01)) ∧
    (spot < strike →
      generate_option_premium spot strike "PE" = roundTo2 ((strike - spot) + spot * 0.02)) ∧
    (spot ≥ strike →
      generate_option_premium spot strike "PE" = roundTo2 (spot * 0.01)) := by
  refine ⟨fun h => ?_, fun h => ?_, fun h => ?_, fun h => ?_⟩
  · simp [generate_option_premium, h]
  · simp [generate_option_premium, not_lt.mpr h]
  · simp [generate_option_premium, h]
  · simp [generate_option_premium, not_lt.mpr h]

/-- C5 (witness): all four branches at concrete inputs. -/
theorem premium_formula_points :
    generate_option_premium 100 50 "CE" = roundTo2 (((100:ℚ) - 50) + 100 * 0.02) ∧
    generate_option_premium 40 50 "CE" = roundTo2 ((40:ℚ) * 0.01) ∧
    generate_option_premium 40 50 "PE" = roundTo2 (((50:ℚ) - 40) + 40 * 0.02) ∧
    generate_option_premium 100 50 "PE" = roundTo2 ((100:ℚ) * 0.01) :=
  ⟨(premium_formula 100 50).1 (by norm_num),
   (premium_formula 40 50).2.1 (by norm_num),
   (premium_formula 40 50).2.2.1 (by norm_num),
   (premium_formula 100 50).2.2.2 (by norm_num)⟩

/-- C6: calculate_irr returns exactly 0 when the strike is 0, for every
premium and days_to_expiry; for a nonzero strike the margin
strike * 0.15 is nonzero, so the guard branch is never taken and the
result is the annualized formula rounded to 2 decimals. -/
theorem irr_guard (premium strike days_to_expiry : ℚ) :
    calculate_irr premium 0 days_to_expiry = 0 ∧
    (strike ≠ 0 →
      strike * 0.15 ≠ 0 ∧
      calculate_irr premium strike days_to_expiry =
        roundTo2 ((premium / (strike * 0.15)) * (365 / days_to_expiry) * 100)) := by
  constructor
  · simp [calculate_irr]
  · intro h
    have hm : strike * (0.15:ℚ) ≠ 0 := mul_ne_zero h (by norm_num)
    exact ⟨hm, by simp [calculate_irr, hm]⟩

/-- C6 (witness): zero strike gives 0; strike 100 takes the formula
branch. -/
theorem irr_guard_points :
    calculate_irr 10 0 30 = 0 ∧
    ((100:ℚ) * 0.15 ≠ 0 ∧
      calculate_irr 10 100 30 = roundTo2 ((10 / ((100:ℚ) * 0.15)) * (365 / 30) * 100)) :=
  ⟨(irr_guard 10 100 30).1, (irr_guard 10 100 30).2 (by norm_num)⟩

/-- C7: on an empty AnalysisRow sequence both writers report the no-data
condition by returning no filename and produce no output file; both are
total functions, so no error is raised. -/
theorem no_data_no_output (filename : Option String) (timestamp : String) :
    save_to_excel [] filename timestamp = none ∧ save_graphs [] filename timestamp = none :=
  ⟨rfl, rfl⟩

/-- C8: on a nonempty input the exported sheet has exactly the thirteen
header names of headerNames in order, and one data row per input record,
in input order. -/
theorem sheet_layout (stocks : List SymbolRecord) (m l : ℚ) (filename : Option String)
    (timestamp : String) (h : stocks ≠ []) :
    ∃ fn, save_to_excel (analyzeList m l stocks) filename timestamp =
      some (fn, { header := headerNames,
                  rows := stocks.map (fun s => rowCells (analyzeStock m l s)) }) := by
  have hne : ¬((stocks.map (analyzeStock m l)).isEmpty = true) := by
    simp [List.isEmpty_iff, h]
  unfold save_to_excel analyzeList
  rw [if_neg hne, List.map_map]
  exact ⟨_, rfl⟩

/-- C8 (witness): the sheet for the single NIFTY record. -/
theorem sheet_layout_point :
    ∃ fn, save_to_excel (analyzeList 15 1 [⟨"NIFTY", 19500, 20000, 18000, 50⟩]) none "ts" =
      some (fn, { header := headerNames,
                  rows := [(⟨"NIFTY", 19500, 20000, 18000, 50⟩ : SymbolRecord)].map
                    (fun s => rowCells (analyzeStock 15 1 s)) }) :=
  sheet_layout [⟨"NIFTY", 19500, 20000, 18000, 50⟩] 15 1 none "ts" (List.cons_ne_nil _ _)

/-- C9 (counterexample): analyze appends to analysis_data without
clearing it and run never resets it, so after two consecutive runs over
the same 10-record input the collection holds 20 rows, not one row per
input record. -/
theorem run_twice_retains_rows :
    (run (run init 15 1 "t").1 15 1 "t").1.analysis_data.length = 20 ∧
    get_sample_data.length = 10 ∧
    (run (run init 15 1 "t").1 15 1 "t").1.analysis_data.length ≠ get_sample_data.length := by
  refine ⟨?_, rfl, ?_⟩
  · rw [run_data, run_data]
    simp [init, analyzeList, get_sample_data]
  · rw [run_data, run_data]
    simp [init, analyzeList, get_sample_data]

/-- C9 (amended): the collection starts empty at construction and a run
from a fresh state produces exactly one row per input record, but run
does not reset the collection: each run appends its rows to whatever the
state already holds, so consecutive runs on one object accumulate. -/
theorem analysis_data_per_run (s : AnalyzerState) (m l : ℚ) (ts : String) :
    init.analysis_data = [] ∧
    (run s m l ts).1.analysis_data = s.analysis_data ++ analyzeList m l get_sample_data ∧
    (run init m l ts).1.analysis_data.length = get_sample_data.length := by
  refine ⟨rfl, run_data s m l ts, ?_⟩
  rw [run_data]
  simp [init, analyzeList]

/-- C10: find_nearest_strike is idempotent for every positive interval:
its output, an exact multiple of the interval, rounds to itself. -/
theorem nearest_strike_idem (price interval : ℚ) (h : 0 < interval) :
    find_nearest_strike (find_nearest_strike price interval) interval =
      find_nearest_strike price interval :=
  fns_idem price interval (ne_of_gt h)

/-- C10 (witness): idempotence at price 123, interval 50. -/
theorem nearest_strike_idem_point :
    find_nearest_strike (find_nearest_strike 123 50) 50 = find_nearest_strike 123 50 :=
  nearest_strike_idem 123 50 (by norm_num)

end OptionsAnalyzer
